import Mathlib

/-!
Verification development for statsig-io/cloud-profiler-rust.

Shallow embedding of `src/backoff.rs` and `src/lib.rs`.

Modelling conventions:
* `f64` arithmetic is modelled by exact rationals (`ℚ`); every numeric
  literal of the source is carried over exactly (`1.3` becomes `13/10`).
* The random source consumed by `rand::thread_rng` is modelled by a
  parameter `u : ℚ`, the uniform draw from `[0,1)` used by one call of
  `gen_range`.
* Rust panics (the `assert!` inside `rand`'s `gen_range` on an empty
  range, and `.unwrap()` on gzip encoder errors) are modelled by `none`
  respectively a dedicated `crashed` result constructor: a panicked
  background task produces no further state.
* The external collaborators (GCP HTTP endpoints, the pprof sampler, the
  gzip encoder) are modelled by an environment record holding the outcome
  each of them would produce in one loop iteration.
-/

namespace CloudProfiler

/-- Model of `rand`'s `Rng::gen_range(lo..hi)` for floats, driven by a
uniform source `u ∈ [0,1)`: the draw is `lo + u * (hi - lo)`.  `gen_range`
asserts that the range is nonempty (`cannot sample empty range`); `none`
models that panic. -/
def gen_range (u lo hi : ℚ) : Option ℚ :=
  if lo < hi then some (lo + u * (hi - lo)) else none

/-- Rust `f64::min` of the source, written as an executable `if`. -/
def fmin (a b : ℚ) : ℚ :=
  if a ≤ b then a else b

/-- Structure `Backoff` from `src/backoff.rs`: the constructor argument
`min_envelope_sec` is not stored, it only seeds `current_envelope_sec`. -/
structure Backoff where
  max_envelope_sec : ℚ
  multiplier : ℚ
  current_envelope_sec : ℚ
deriving DecidableEq

/-- Constructor `Backoff::new(min_envelope_sec, max_envelope_sec, multiplier)`. -/
def Backoff.new (min_envelope_sec max_envelope_sec multiplier : ℚ) : Backoff :=
  { max_envelope_sec := max_envelope_sec,
    multiplier := multiplier,
    current_envelope_sec := min_envelope_sec }

/-- Method `Backoff::next_backoff`: draw a duration from
`gen_range(0.0..current_envelope_sec)`, then advance the envelope to
`max_envelope_sec.min(current_envelope_sec * multiplier)`.  The result is
`none` exactly when the draw panics (empty range). -/
def Backoff.next_backoff (u : ℚ) (b : Backoff) : Option (ℚ × Backoff) :=
  match gen_range u 0 b.current_envelope_sec with
  | none => none
  | some duration =>
      some (duration,
        { b with
            current_envelope_sec := fmin b.max_envelope_sec (b.current_envelope_sec * b.multiplier) })

/-- Error type `GcpCloudProfilingError` from `src/lib.rs`. -/
inductive GcpCloudProfilingError where
  | FailedToGetAuthToken (msg : String)
  | FailedToCreateProfile (msg : String)
  | FailedToProfileApplication (msg : String)
  | FailedToBuildReport (msg : String)
  | FailedToSerializeProfile (msg : String)
  | FailedToSendProfileToGCP (msg : String)

/-- Configuration record `CloudProfilerConfiguration` from `src/lib.rs`. -/
structure CloudProfilerConfiguration where
  sampling_rate : Int

/-- The parts of `google_cloudprofiler2::api::Profile` the loop reads and
writes: the session duration (a `chrono::Duration`, modelled as its total
signed nanosecond count), the session name, and the uploaded bytes. -/
structure Profile where
  duration : Option Int
  name : Option String
  profile_bytes : Option (List Nat)

/-- Record `google_cloudprofiler2::api::Deployment` as populated by
`maybe_start_profiling`. -/
structure Deployment where
  project_id : Option String
  target : Option String
  labels : Option (List (String × String))

/-- Request record `CreateProfileRequest` as built by `create_profile`. -/
structure CreateProfileRequest where
  deployment : Option Deployment
  profile_type : Option (List String)

/-- Model of `HashMap::insert` on the association-list model of
`HashMap<String, String>`: replaces the value when the key is present,
appends otherwise. -/
def hashmap_insert (k v : String) (m : List (String × String)) : List (String × String) :=
  if m.any (fun q => q.1 == k) then
    m.map (fun q => if q.1 == k then (k, v) else q)
  else m ++ [(k, v)]

/-- The label map built in `maybe_start_profiling` (lines 78-80):
insert `language -> go`, then `version -> version`. -/
def mk_labels (version : String) : List (String × String) :=
  hashmap_insert ("version") version (hashmap_insert ("language") ("go") [])

/-- The `Deployment` built in `maybe_start_profiling` (lines 81-85). -/
def mk_deployment (project_id service version : String) : Deployment :=
  { project_id := some project_id,
    target := some service,
    labels := some (mk_labels version) }

/-- The literal parent string passed to `profiles_create` in
`create_profile` (line 192). -/
def create_profile_parent : String := "projects/statsig-services"

/-- chrono `Duration::num_seconds`: whole seconds, truncated toward zero. -/
def num_seconds (nanos : Int) : Int := Int.tdiv nanos 1000000000

/-- chrono `Duration::num_milliseconds`: whole (total) milliseconds,
truncated toward zero. -/
def num_milliseconds (nanos : Int) : Int := Int.tdiv nanos 1000000

/-- Rust `as u64` on an `i64` value: two-complement wrap, i.e. mod `2^64`. -/
def cast_u64 (x : Int) : Nat := (Int.emod x (2 ^ 64)).toNat

/-- Rust `as u32` on an `i64` value: two-complement wrap, i.e. mod `2^32`. -/
def cast_u32 (x : Int) : Nat := (Int.emod x (2 ^ 32)).toNat

/-- Model of `std::time::Duration::new(secs, nanos)`, as a total nanosecond count. -/
def duration_new (secs nanos : Nat) : Nat := secs * 1000000000 + nanos

/-- The `std::time::Duration` computed from the session `chrono::Duration`
in `maybe_start_profiling` lines 114-118:
`Duration::new(d.num_seconds() as u64, (d.num_milliseconds() as u32) * 1000)`
(the nanosecond argument is the TOTAL millisecond count times 1000, with
u32 wrapping on the multiplication), returned as total nanoseconds. -/
def profile_sleep_nanos (d : Int) : Nat :=
  duration_new (cast_u64 (num_seconds d)) ((cast_u32 (num_milliseconds d) * 1000) % 2 ^ 32)

/-- The outcome of one call of a fallible stage, as produced by the
external collaborators during one loop iteration.  Each field holds what
the corresponding call would return this iteration; `Except.error`
carries the stringified error the Rust code would format. -/
structure IterEnv where
  should_start : Bool
  configuration : CloudProfilerConfiguration
  auth_token : Except String String
  create_result : Except String Profile
  guard_result : Except String Unit
  report_result : Except String Unit
  pprof_result : Except String Unit
  write_to_vec_result : Except String Unit
  gzip_write_result : Except String Unit
  gzip_finish_result : Except String (List Nat)
  upload_auth_token : Except String String
  patch_result : Except String Unit
  rand_u : ℚ

/-- Result of a stage that can also panic: `crashed` models an
uncaught Rust panic (`unwrap` on an `Err`), which kills the spawned task. -/
inductive PResult (α : Type) where
  | ok (a : α)
  | err (e : GcpCloudProfilingError)
  | crashed

/-- Function `get_auth_token` (lines 164-180): wraps a token-provider failure in
`FailedToGetAuthToken`. -/
def get_auth_token (tok : Except String String) : Except GcpCloudProfilingError String :=
  match tok with
  | .error e => .error (.FailedToGetAuthToken e)
  | .ok t => .ok t

/-- Function `get_hub` (lines 147-162): fails exactly when fetching the auth token
fails; the hub construction itself cannot fail. -/
def get_hub (tok : Except String String) : Except GcpCloudProfilingError Unit :=
  match get_auth_token tok with
  | .error e => .error e
  | .ok _ => .ok ()

/-- Function `create_profile` (lines 182-199).  Besides the `Result`, the first
component records the remote call actually issued: the request and the
parent string passed to `profiles_create`, or `none` when no call was made
(auth failed before the request could be sent). -/
def create_profile (deployment : Option Deployment) (env : IterEnv) :
    Option (CreateProfileRequest × String) × Except GcpCloudProfilingError Profile :=
  let request : CreateProfileRequest :=
    { deployment := deployment, profile_type := some [("Wall")] }
  match get_hub env.auth_token with
  | .error e => (none, .error e)
  | .ok _ =>
      match env.create_result with
      | .error e => (some (request, create_profile_parent), .error (.FailedToCreateProfile e))
      | .ok profile => (some (request, create_profile_parent), .ok profile)

/-- Function `do_profile` (lines 201-219).  The first component records the
sampling activity actually performed: `(slept nanoseconds, sampling rate)`
when the profiler guard started (the sleep happens exactly then), `none`
when starting the guard failed.  The pprof report content is irrelevant to
control flow and is not modelled. -/
def do_profile (env : IterEnv) (profile_duration : Nat)
    (configuration : CloudProfilerConfiguration) :
    Option (Nat × Int) × Except GcpCloudProfilingError Unit :=
  match env.guard_result with
  | .error e => (none, .error (.FailedToProfileApplication e))
  | .ok _ =>
      (some (profile_duration, configuration.sampling_rate),
        match env.report_result with
        | .error e => .error (.FailedToBuildReport e)
        | .ok _ => .ok ())

/-- Function `update_gcp_profile_server` (lines 221-268).  The two gzip-encoder
calls are followed by `.unwrap()` in the source (lines 235-236), so their
failure is a panic (`crashed`), not an `Err`. -/
def update_gcp_profile_server (env : IterEnv) (profile : Profile) : PResult Unit :=
  match env.pprof_result with
  | .error e => .err (.FailedToSerializeProfile e)
  | .ok _ =>
      match env.write_to_vec_result with
      | .error e => .err (.FailedToSerializeProfile e)
      | .ok _ =>
          match env.gzip_write_result with
          | .error _ => .crashed
          | .ok _ =>
              match env.gzip_finish_result with
              | .error _ => .crashed
              | .ok _compressed =>
                  match profile.name with
                  | none => .err (.FailedToSerializeProfile ("GCP profile did not contain a name..."))
                  | some _name =>
                      match get_hub env.upload_auth_token with
                      | .error e => .err e
                      | .ok _ =>
                          match env.patch_result with
                          | .error e => .err (.FailedToSendProfileToGCP e)
                          | .ok _ => .ok ()

/-- Loop-local mutable state of `maybe_start_profiling`:
`backoff_provider` and `retry_back_off` (lines 87-88). -/
structure LoopState where
  backoff_provider : Backoff
  retry_back_off : Option ℚ

/-- Observable effects of one loop iteration: timed sleeps (in seconds,
excluding the sampling sleep), diagnostic log lines, whether
`create_profile` ran, the remote create call issued (request and parent),
the sampling performed (slept nanoseconds and sampling rate), and whether
`update_gcp_profile_server` ran. -/
structure IterTrace where
  sleeps : List ℚ
  logs : List String
  create_called : Bool
  create_request : Option (CreateProfileRequest × String)
  sample : Option (Nat × Int)
  upload_called : Bool

/-- Result of one loop iteration: either the loop continues with a new
state, or the task died from an uncaught panic. -/
inductive IterResult where
  | next (s : LoopState) (t : IterTrace)
  | crashed (t : IterTrace)

def IterResult.isNext : IterResult → Bool
  | .next _ _ => true
  | .crashed _ => false

def IterResult.retry_after : IterResult → Option ℚ
  | .next s _ => s.retry_back_off
  | .crashed _ => none

def IterResult.trace : IterResult → IterTrace
  | .next _ t => t
  | .crashed t => t

/-- Diagnostic line printed before a backoff sleep (line 96); the numeric
payload of the Rust format string is not modelled. -/
def retry_log : String := "[gcp cloud profiler] Retrying in ... seconds"

def create_err_log : String := "[gcp cloud profiler] Error creating profile"

def missing_duration_log : String := "[gcp cloud profiler] Profile missing duration..."

def profiling_err_log : String := "[gcp cloud profiler] Error profiling"

def update_err_log : String := "[gcp cloud profiler] Error updating profile"

/-- The failure exit of an iteration (lines 108-112, 119-123, 131-135,
138-142): compute the next backoff duration and store it in
`retry_back_off`.  If `next_backoff` panics, so does the task. -/
def on_failure (u : ℚ) (s : LoopState) (t : IterTrace) : IterResult :=
  match Backoff.next_backoff u s.backoff_provider with
  | none => .crashed t
  | some (d, b) => .next { backoff_provider := b, retry_back_off := some d } t

/-- The body of one gate-passing iteration after the backoff-wait / reset
step: `s1` is the state after that step, `pre_sleeps` / `pre_logs` what it
already slept and logged (lines 104-142). -/
def step_cycle (deployment : Option Deployment) (env : IterEnv) (s1 : LoopState)
    (pre_sleeps : List ℚ) (pre_logs : List String) : IterResult :=
  let created := create_profile deployment env
  match created.2 with
  | .error _e =>
      on_failure env.rand_u s1
        { sleeps := pre_sleeps, logs := pre_logs ++ [create_err_log],
          create_called := true, create_request := created.1,
          sample := none, upload_called := false }
  | .ok profile =>
      match profile.duration with
      | none =>
          on_failure env.rand_u s1
            { sleeps := pre_sleeps, logs := pre_logs ++ [missing_duration_log],
              create_called := true, create_request := created.1,
              sample := none, upload_called := false }
      | some d =>
          let profile_duration := profile_sleep_nanos d
          let configuration := env.configuration
          let profiled := do_profile env profile_duration configuration
          match profiled.2 with
          | .error _e =>
              on_failure env.rand_u s1
                { sleeps := pre_sleeps, logs := pre_logs ++ [profiling_err_log],
                  create_called := true, create_request := created.1,
                  sample := profiled.1, upload_called := false }
          | .ok _ =>
              match update_gcp_profile_server env profile with
              | .crashed =>
                  .crashed
                    { sleeps := pre_sleeps, logs := pre_logs,
                      create_called := true, create_request := created.1,
                      sample := profiled.1, upload_called := true }
              | .err _e =>
                  on_failure env.rand_u s1
                    { sleeps := pre_sleeps, logs := pre_logs ++ [update_err_log],
                      create_called := true, create_request := created.1,
                      sample := profiled.1, upload_called := true }
              | .ok _ =>
                  .next s1
                    { sleeps := pre_sleeps, logs := pre_logs,
                      create_called := true, create_request := created.1,
                      sample := profiled.1, upload_called := true }

/-- One iteration of the control loop (lines 89-143).  Gate check first
(sleep 60 s and re-check when closed); then either sleep the pending
backoff (keeping `retry_back_off` as is — the source never clears it on
this path) or, when no failure is pending, re-create the backoff provider
at its floor; then create / sample / upload. -/
def step (deployment : Option Deployment) (env : IterEnv) (s : LoopState) : IterResult :=
  if !env.should_start then
    .next s
      { sleeps := [60], logs := [], create_called := false,
        create_request := none, sample := none, upload_called := false }
  else
    match s.retry_back_off with
    | some rbo =>
        step_cycle deployment env
          { backoff_provider := s.backoff_provider, retry_back_off := some rbo }
          [rbo] [retry_log]
    | none =>
        step_cycle deployment env
          { backoff_provider := Backoff.new 60 3600 (13/10), retry_back_off := none }
          [] []

/-- Computes `true` when the gate is closed (no cycle attempted) or every fallible
stage of the cycle reports success and the session response carries both
`duration` and `name`. Gzip outcomes are omitted: their failure panics
rather than failing the iteration. -/
def stage_results_ok (env : IterEnv) : Bool :=
  (match env.auth_token with | .ok _ => true | .error _ => false) &&
  (match env.create_result with
   | .error _ => false
   | .ok p =>
      (match p.duration with | some _ => true | none => false) &&
      (match env.guard_result with | .ok _ => true | .error _ => false) &&
      (match env.report_result with | .ok _ => true | .error _ => false) &&
      (match env.pprof_result with | .ok _ => true | .error _ => false) &&
      (match env.write_to_vec_result with | .ok _ => true | .error _ => false) &&
      (match p.name with | some _ => true | none => false) &&
      (match env.upload_auth_token with | .ok _ => true | .error _ => false) &&
      (match env.patch_result with | .ok _ => true | .error _ => false))

def cycle_ok (env : IterEnv) : Bool := !env.should_start || stage_results_ok env

/-- Loop state right after spawn (lines 87-88). -/
def initial_loop_state : LoopState :=
  { backoff_provider := Backoff.new 60 3600 (13/10), retry_back_off := none }

/-- The deployment of the doc example: `maybe_start_profiling`
called with project `my-gcp-project-id`, service `my-service`,
version `v1`. -/
def dep0 : Option Deployment :=
  some (mk_deployment ("my-gcp-project-id") ("my-service") ("v1"))

/-- A session response with a 5-second duration and a name. -/
def profile_ok : Profile :=
  { duration := some 5000000000, name := some ("p1"), profile_bytes := none }

/-- The `CreateProfileRequest` built for the deployment `dep0`. -/
def req0 : CreateProfileRequest :=
  { deployment := dep0, profile_type := some [("Wall")] }

/-- An iteration in which every external call succeeds. -/
def env_all_ok : IterEnv :=
  { should_start := true,
    configuration := { sampling_rate := 100 },
    auth_token := .ok ("token"),
    create_result := .ok profile_ok,
    guard_result := .ok (),
    report_result := .ok (),
    pprof_result := .ok (),
    write_to_vec_result := .ok (),
    gzip_write_result := .ok (),
    gzip_finish_result := .ok [],
    upload_auth_token := .ok ("token"),
    patch_result := .ok (),
    rand_u := 0 }

def env_create_fails : IterEnv := { env_all_ok with create_result := .error ("boom") }

def env_gzip_fails : IterEnv := { env_all_ok with gzip_finish_result := .error ("io error") }

/-- A session response lacking the `duration` field. -/
def profile_no_duration : Profile :=
  { duration := none, name := some ("p1"), profile_bytes := none }

/-- A session response lacking the `name` field. -/
def profile_no_name : Profile :=
  { duration := some 5000000000, name := none, profile_bytes := none }

def env_missing_duration : IterEnv :=
  { env_all_ok with create_result := .ok profile_no_duration }

def env_missing_name : IterEnv :=
  { env_all_ok with create_result := .ok profile_no_name }

def env_gate_closed : IterEnv := { env_all_ok with should_start := false }

/-- The loop state after one failed `create_profile` from the initial
state with `rand_u = 0`: the drawn backoff is `0` and the envelope has
advanced to `min 3600 (60 * 1.3) = 78`. -/
def state_after_failure : LoopState :=
  { backoff_provider :=
      { max_envelope_sec := 3600, multiplier := 13/10, current_envelope_sec := 78 },
    retry_back_off := some 0 }

theorem fmin_eq_min (a b : ℚ) : fmin a b = min a b := by
  unfold fmin
  split
  · exact (min_eq_left (by assumption)).symm
  · exact (min_eq_right (le_of_not_le (by assumption))).symm

/-- Evaluation of one `next_backoff` call on the freshly constructed
provider with draw `u = 1/2`. -/
theorem next_backoff_floor_eval :
    Backoff.next_backoff (1/2) (Backoff.new 60 3600 (13/10)) =
      some (30, ⟨3600, 13/10, 78⟩) := by
  norm_num [Backoff.next_backoff, Backoff.new, gen_range, fmin]

/-- C3: the claim says `next_backoff` on a state with
`current_envelope_sec = 0` returns the duration `0` and does not fail.
The source passes the range `0.0..0.0` straight to `rand`'s `gen_range`,
whose `cannot sample empty range` assertion panics on it, so the call
produces no result at all: the degenerate range is NOT handled. -/
theorem c3_zero_envelope_draw_panics :
    Backoff.next_backoff (1/2) (Backoff.new 0 3600 (13/10)) = none := by
  norm_num [Backoff.next_backoff, Backoff.new, gen_range]

/-- C5: for a provider constructed with `floor ≤ ceiling` and
`growth_factor > 1`, the invariant `floor ≤ current_envelope ≤ ceiling`
holds after construction and is preserved (together with the stored
parameters) by every completed call of `next_backoff`. -/
theorem c5_backoff_envelope_invariant (floor ceiling mult u d : ℚ) (b b' : Backoff)
    (hfc : floor ≤ ceiling) (hm : 1 < mult) :
    (floor ≤ (Backoff.new floor ceiling mult).current_envelope_sec ∧
      (Backoff.new floor ceiling mult).current_envelope_sec ≤
        (Backoff.new floor ceiling mult).max_envelope_sec) ∧
    (b.max_envelope_sec = ceiling → b.multiplier = mult →
      floor ≤ b.current_envelope_sec → b.current_envelope_sec ≤ ceiling →
      Backoff.next_backoff u b = some (d, b') →
      b'.max_envelope_sec = ceiling ∧ b'.multiplier = mult ∧
        floor ≤ b'.current_envelope_sec ∧ b'.current_envelope_sec ≤ ceiling) := by
  constructor
  · exact ⟨le_refl floor, hfc⟩
  · intro hmax hmul hlo hhi hn
    by_cases hpos : (0:ℚ) < b.current_envelope_sec
    · simp only [Backoff.next_backoff, gen_range, if_pos hpos, Option.some.injEq,
        Prod.mk.injEq] at hn
      obtain ⟨hd, hb⟩ := hn
      subst hb
      refine ⟨hmax, hmul, ?_, ?_⟩
      · show floor ≤ fmin b.max_envelope_sec (b.current_envelope_sec * b.multiplier)
        rw [fmin_eq_min]
        refine le_min (hmax ▸ hfc) ?_
        calc floor ≤ b.current_envelope_sec := hlo
          _ ≤ b.current_envelope_sec * b.multiplier :=
            le_mul_of_one_le_right (le_of_lt hpos) (hmul ▸ le_of_lt hm)
      · show fmin b.max_envelope_sec (b.current_envelope_sec * b.multiplier) ≤ ceiling
        rw [fmin_eq_min]
        calc min b.max_envelope_sec (b.current_envelope_sec * b.multiplier)
            ≤ b.max_envelope_sec := min_le_left _ _
          _ = ceiling := hmax
    · simp only [Backoff.next_backoff, gen_range, if_neg hpos] at hn
      exact absurd hn (by simp)

/-- Witness for C5 at `floor = 60`, `ceiling = 3600`,
`growth_factor = 1.3`, draw `u = 1/2`. -/
theorem c5_backoff_envelope_invariant_witness :
    (60:ℚ) ≤ (Backoff.new 60 3600 (13/10)).current_envelope_sec ∧
    (Backoff.new 60 3600 (13/10)).current_envelope_sec ≤
      (Backoff.new 60 3600 (13/10)).max_envelope_sec :=
  (c5_backoff_envelope_invariant 60 3600 (13/10) (1/2) 30
    (Backoff.new 60 3600 (13/10)) ⟨3600, 13/10, 78⟩
    (by norm_num) (by norm_num)).1

/-- C6: a completed `next_backoff` call returns a duration strictly below
the envelope at the time of the call, advances the envelope to
`min ceiling (envelope * growth_factor)` (hence the envelope never
decreases), and once the envelope sits at the ceiling it stays there. -/
theorem c6_next_backoff_growth (u d : ℚ) (b b' : Backoff)
    (_hu0 : 0 ≤ u) (hu1 : u < 1) (hm : 1 < b.multiplier)
    (hbd : b.current_envelope_sec ≤ b.max_envelope_sec)
    (hn : Backoff.next_backoff u b = some (d, b')) :
    d < b.current_envelope_sec ∧
    b'.current_envelope_sec =
      min b.max_envelope_sec (b.current_envelope_sec * b.multiplier) ∧
    b.current_envelope_sec ≤ b'.current_envelope_sec ∧
    (b.current_envelope_sec = b.max_envelope_sec →
      b'.current_envelope_sec = b.max_envelope_sec) := by
  by_cases hpos : (0:ℚ) < b.current_envelope_sec
  · simp only [Backoff.next_backoff, gen_range, if_pos hpos, Option.some.injEq,
      Prod.mk.injEq] at hn
    obtain ⟨hd, hb⟩ := hn
    subst hb
    refine ⟨?_, ?_, ?_, ?_⟩
    · rw [← hd]
      have h1 : u * b.current_envelope_sec < 1 * b.current_envelope_sec :=
        mul_lt_mul_of_pos_right hu1 hpos
      simpa using h1
    · show fmin b.max_envelope_sec (b.current_envelope_sec * b.multiplier) =
        min b.max_envelope_sec (b.current_envelope_sec * b.multiplier)
      exact fmin_eq_min _ _
    · show b.current_envelope_sec ≤
        fmin b.max_envelope_sec (b.current_envelope_sec * b.multiplier)
      rw [fmin_eq_min]
      exact le_min hbd (le_mul_of_one_le_right (le_of_lt hpos) (le_of_lt hm))
    · intro hcm
      show fmin b.max_envelope_sec (b.current_envelope_sec * b.multiplier) =
        b.max_envelope_sec
      rw [fmin_eq_min]
      refine min_eq_left ?_
      calc b.max_envelope_sec = b.current_envelope_sec := hcm.symm
        _ ≤ b.current_envelope_sec * b.multiplier :=
          le_mul_of_one_le_right (le_of_lt hpos) (le_of_lt hm)
  · simp only [Backoff.next_backoff, gen_range, if_neg hpos] at hn
    exact absurd hn (by simp)

/-- Witness for C6 on the freshly constructed provider with `u = 1/2`:
the drawn duration `30` is below the envelope `60`, and the envelope
advances to `min 3600 78 = 78`. -/
theorem c6_next_backoff_growth_witness :
    30 < (Backoff.new 60 3600 (13/10)).current_envelope_sec ∧
    (⟨3600, 13/10, 78⟩ : Backoff).current_envelope_sec =
      min (Backoff.new 60 3600 (13/10)).max_envelope_sec
        ((Backoff.new 60 3600 (13/10)).current_envelope_sec *
          (Backoff.new 60 3600 (13/10)).multiplier) ∧
    (Backoff.new 60 3600 (13/10)).current_envelope_sec ≤
      (⟨3600, 13/10, 78⟩ : Backoff).current_envelope_sec ∧
    ((Backoff.new 60 3600 (13/10)).current_envelope_sec =
        (Backoff.new 60 3600 (13/10)).max_envelope_sec →
      (⟨3600, 13/10, 78⟩ : Backoff).current_envelope_sec =
        (Backoff.new 60 3600 (13/10)).max_envelope_sec) :=
  c6_next_backoff_growth (1/2) 30 (Backoff.new 60 3600 (13/10)) ⟨3600, 13/10, 78⟩
    (by norm_num) (by norm_num) (by norm_num [Backoff.new])
    (by norm_num [Backoff.new]) next_backoff_floor_eval

/-- Evaluation of the sleep-duration conversion on a 5-second session
duration: `num_seconds = 5`, `num_milliseconds = 5000`, so the code
builds `Duration::new(5, 5000 * 1000)` = `5.005` seconds. -/
theorem profile_sleep_nanos_eval : profile_sleep_nanos 5000000000 = 5005000000 := by
  decide

/-- C1: the claim says a fully successful cycle clears the failure state,
so the next iteration has no backoff sleep and the provider is back at the
floor.  Evaluating the loop shows otherwise: after one failed create
(state `state_after_failure`: pending backoff `some 0`, envelope `78`), a
fully successful cycle returns the SAME state — the pending backoff is
still set (the success path never assigns `retry_back_off = None`) and the
envelope is still `78`, not the floor `60`; every later iteration sleeps
the stale backoff again. -/
theorem c1_success_after_failure_keeps_failure_state :
    step dep0 env_create_fails initial_loop_state =
      .next state_after_failure
        { sleeps := [], logs := [create_err_log], create_called := true,
          create_request := some (req0, create_profile_parent),
          sample := none, upload_called := false } ∧
    step dep0 env_all_ok state_after_failure =
      .next state_after_failure
        { sleeps := [0], logs := [retry_log], create_called := true,
          create_request := some (req0, create_profile_parent),
          sample := some (5005000000, 100), upload_called := true } ∧
    state_after_failure.retry_back_off = some 0 ∧
    state_after_failure.backoff_provider.current_envelope_sec = 78 ∧
    initial_loop_state.retry_back_off = none ∧
    (78 : ℚ) ≠ 60 := by
  refine ⟨?_, ?_, rfl, rfl, rfl, by norm_num⟩
  · norm_num [step, step_cycle, on_failure, create_profile, get_hub, get_auth_token,
      Backoff.next_backoff, Backoff.new, gen_range, fmin, env_create_fails, env_all_ok,
      initial_loop_state, state_after_failure, req0, profile_ok]
  · norm_num [step, step_cycle, on_failure, create_profile, do_profile,
      update_gcp_profile_server, get_hub, get_auth_token, env_all_ok,
      state_after_failure, req0, profile_ok, profile_sleep_nanos_eval]

/-- C2 counterexample: a gzip `finish` error is not caught at the stage
boundary — the `unwrap` panics, the task dies with no diagnostic line and
no retry, refuting that every failure kind is converted into an iteration
failure and that the loop never terminates on a failure. -/
theorem c2_gzip_failure_kills_task :
    step dep0 env_gzip_fails initial_loop_state =
      .crashed
        { sleeps := [], logs := [], create_called := true,
          create_request := some (req0, create_profile_parent),
          sample := some (5005000000, 100), upload_called := true } := by
  norm_num [step, step_cycle, on_failure, create_profile, do_profile,
    update_gcp_profile_server, get_hub, get_auth_token, env_gzip_fails, env_all_ok,
    initial_loop_state, req0, profile_ok, profile_sleep_nanos_eval]

/-- C4: the claim says the sampling sleep equals the session duration.
For a 5-second session duration the loop sleeps
`Duration::new(num_seconds, num_milliseconds * 1000)` = 5.005 s
(5005000000 ns ≠ 5000000000 ns): the nanosecond argument mistakenly uses
the TOTAL millisecond count times 1000.  The sampling rate (100) is the
one fetched from the configuration this iteration, as claimed. -/
theorem c4_sampling_sleep_exceeds_session_duration :
    profile_ok.duration = some 5000000000 ∧
    (step dep0 env_all_ok initial_loop_state).trace.sample = some (5005000000, 100) ∧
    env_all_ok.configuration.sampling_rate = 100 ∧
    profile_sleep_nanos 5000000000 = 5005000000 ∧
    (5005000000 : Nat) ≠ 5000000000 := by
  refine ⟨rfl, ?_, rfl, profile_sleep_nanos_eval, by norm_num⟩
  norm_num [step, step_cycle, on_failure, create_profile, do_profile,
    update_gcp_profile_server, get_hub, get_auth_token, env_all_ok,
    initial_loop_state, req0, profile_ok, profile_sleep_nanos_eval, IterResult.trace]

/-- A failure exit with a positive envelope continues the loop. -/
theorem on_failure_isNext (u : ℚ) (s : LoopState) (t : IterTrace)
    (h : 0 < s.backoff_provider.current_envelope_sec) :
    (on_failure u s t).isNext = true := by
  unfold on_failure Backoff.next_backoff gen_range
  rw [if_pos h]
  rfl

/-- A failure exit with a positive envelope sets a pending backoff. -/
theorem on_failure_retry_isSome (u : ℚ) (s : LoopState) (t : IterTrace)
    (h : 0 < s.backoff_provider.current_envelope_sec) :
    ((on_failure u s t).retry_after).isSome = true := by
  unfold on_failure Backoff.next_backoff gen_range
  rw [if_pos h]
  rfl

/-- A failure exit carries its trace unchanged, whether or not it panics. -/
theorem on_failure_trace (u : ℚ) (s : LoopState) (t : IterTrace) :
    (on_failure u s t).trace = t := by
  unfold on_failure
  cases Backoff.next_backoff u s.backoff_provider with
  | none => rfl
  | some q =>
      obtain ⟨d, b⟩ := q
      rfl

/-- Every failure of a fallible stage inside one gate-open cycle is caught
and turned into a continued iteration with a pending backoff and at least
one diagnostic line, provided the two gzip-encoder calls succeed. -/
theorem step_cycle_catches_failures (dep : Option Deployment) (env : IterEnv)
    (s1 : LoopState) (ps : List ℚ) (pl : List String)
    (h1 : 0 < s1.backoff_provider.current_envelope_sec)
    (hw : env.gzip_write_result = .ok ()) (bs : List Nat)
    (hf : env.gzip_finish_result = .ok bs) :
    (step_cycle dep env s1 ps pl).isNext = true ∧
    (stage_results_ok env = false →
      ((step_cycle dep env s1 ps pl).retry_after).isSome = true ∧
      (step_cycle dep env s1 ps pl).trace.logs ≠ []) := by
  cases hA : env.auth_token with
  | error e =>
      simp [step_cycle, create_profile, get_hub, get_auth_token, hA,
        on_failure_isNext, on_failure_retry_isSome, on_failure_trace, h1]
  | ok tok =>
      cases hC : env.create_result with
      | error e =>
          simp [step_cycle, create_profile, get_hub, get_auth_token, hA, hC,
            on_failure_isNext, on_failure_retry_isSome, on_failure_trace, h1]
      | ok p =>
          cases hD : p.duration with
          | none =>
              simp [step_cycle, create_profile, get_hub, get_auth_token, hA, hC, hD,
                on_failure_isNext, on_failure_retry_isSome, on_failure_trace, h1]
          | some d =>
              cases hG : env.guard_result with
              | error e =>
                  simp [step_cycle, create_profile, do_profile, get_hub, get_auth_token,
                    hA, hC, hD, hG,
                    on_failure_isNext, on_failure_retry_isSome, on_failure_trace, h1]
              | ok g =>
                  cases hR : env.report_result with
                  | error e =>
                      simp [step_cycle, create_profile, do_profile, get_hub,
                        get_auth_token, hA, hC, hD, hG, hR,
                        on_failure_isNext, on_failure_retry_isSome, on_failure_trace, h1]
                  | ok r =>
                      cases hP : env.pprof_result with
                      | error e =>
                          simp [step_cycle, create_profile, do_profile,
                            update_gcp_profile_server, get_hub, get_auth_token,
                            hA, hC, hD, hG, hR, hP,
                            on_failure_isNext, on_failure_retry_isSome, on_failure_trace, h1]
                      | ok w0 =>
                          cases hW : env.write_to_vec_result with
                          | error e =>
                              simp [step_cycle, create_profile, do_profile,
                                update_gcp_profile_server, get_hub, get_auth_token,
                                hA, hC, hD, hG, hR, hP, hW,
                                on_failure_isNext, on_failure_retry_isSome,
                                on_failure_trace, h1]
                          | ok w1 =>
                              cases hN : p.name with
                              | none =>
                                  simp [step_cycle, create_profile, do_profile,
                                    update_gcp_profile_server, get_hub, get_auth_token,
                                    hA, hC, hD, hG, hR, hP, hW, hw, hf, hN,
                                    on_failure_isNext, on_failure_retry_isSome,
                                    on_failure_trace, h1]
                              | some nm =>
                                  cases hU : env.upload_auth_token with
                                  | error e =>
                                      simp [step_cycle, create_profile, do_profile,
                                        update_gcp_profile_server, get_hub,
                                        get_auth_token, hA, hC, hD, hG, hR, hP, hW,
                                        hw, hf, hN, hU,
                                        on_failure_isNext, on_failure_retry_isSome,
                                        on_failure_trace, h1]
                                  | ok tok2 =>
                                      cases hPt : env.patch_result with
                                      | error e =>
                                          simp [step_cycle, create_profile, do_profile,
                                            update_gcp_profile_server, get_hub,
                                            get_auth_token, hA, hC, hD, hG, hR, hP, hW,
                                            hw, hf, hN, hU, hPt,
                                            on_failure_isNext, on_failure_retry_isSome,
                                            on_failure_trace, h1]
                                      | ok u0 =>
                                          simp [step_cycle, create_profile, do_profile,
                                            update_gcp_profile_server, get_hub,
                                            get_auth_token, stage_results_ok,
                                            hA, hC, hD, hG, hR, hP, hW, hw, hf, hN,
                                            hU, hPt, IterResult.isNext]

/-- C2 (amended): every failure kind of the taxonomy EXCEPT failures of
the two gzip-encoder calls (whose `unwrap` panics the task, see the
counterexample) is caught at its stage boundary: the iteration always
continues, and whenever some stage failed the next state has a pending
backoff and a diagnostic line was logged. -/
theorem c2_failures_caught_except_gzip (dep : Option Deployment) (env : IterEnv)
    (s : LoopState)
    (h0 : 0 < s.backoff_provider.current_envelope_sec)
    (hw : env.gzip_write_result = .ok ()) (bs : List Nat)
    (hf : env.gzip_finish_result = .ok bs) :
    (step dep env s).isNext = true ∧
    (cycle_ok env = false →
      ((step dep env s).retry_after).isSome = true ∧
      (step dep env s).trace.logs ≠ []) := by
  cases hS : env.should_start with
  | false =>
      constructor
      · simp [step, hS, IterResult.isNext]
      · intro hco
        simp [cycle_ok, hS] at hco
  | true =>
      have hsro : cycle_ok env = false → stage_results_ok env = false := by
        intro hco
        simpa [cycle_ok, hS] using hco
      cases hrb : s.retry_back_off with
      | some rbo =>
          have hstep : step dep env s =
              step_cycle dep env
                { backoff_provider := s.backoff_provider, retry_back_off := some rbo }
                [rbo] [retry_log] := by
            simp [step, hS, hrb]
          have h := step_cycle_catches_failures dep env
            { backoff_provider := s.backoff_provider, retry_back_off := some rbo }
            [rbo] [retry_log] h0 hw bs hf
          rw [hstep]
          exact ⟨h.1, fun hco => h.2 (hsro hco)⟩
      | none =>
          have hstep : step dep env s =
              step_cycle dep env
                { backoff_provider := Backoff.new 60 3600 (13/10), retry_back_off := none }
                [] [] := by
            simp [step, hS, hrb]
          have h := step_cycle_catches_failures dep env
            { backoff_provider := Backoff.new 60 3600 (13/10), retry_back_off := none }
            [] [] (by norm_num [Backoff.new]) hw bs hf
          rw [hstep]
          exact ⟨h.1, fun hco => h.2 (hsro hco)⟩

/-- Witness for C2 (amended) at the iteration whose `create_profile`
fails: the loop continues, a backoff is pending and a line was logged. -/
theorem c2_failures_caught_except_gzip_witness :
    (step dep0 env_create_fails initial_loop_state).isNext = true ∧
    (cycle_ok env_create_fails = false →
      ((step dep0 env_create_fails initial_loop_state).retry_after).isSome = true ∧
      (step dep0 env_create_fails initial_loop_state).trace.logs ≠ []) :=
  c2_failures_caught_except_gzip dep0 env_create_fails initial_loop_state
    (by norm_num [initial_loop_state, Backoff.new]) rfl [] rfl

/-- C7: a session response without `duration`, and a session without the
`name` needed for upload, are each treated as a failure of their stage:
the loop continues, sets a pending backoff and logs a line — it does not
crash.  The missing name surfaces from `update_gcp_profile_server` as the
`FailedToSerializeProfile` error carrying the diagnostic text. -/
theorem c7_missing_fields_are_stage_failures :
    (∀ (dep : Option Deployment) (env : IterEnv) (s : LoopState) (p : Profile),
      env.should_start = true →
      0 < s.backoff_provider.current_envelope_sec →
      (create_profile dep env).2 = .ok p →
      p.duration = none →
      (step dep env s).isNext = true ∧
      ((step dep env s).retry_after).isSome = true ∧
      (step dep env s).trace.logs ≠ []) ∧
    (∀ (dep : Option Deployment) (env : IterEnv) (s : LoopState) (p : Profile)
      (d : Int) (bs : List Nat),
      env.should_start = true →
      0 < s.backoff_provider.current_envelope_sec →
      (create_profile dep env).2 = .ok p →
      p.duration = some d →
      env.guard_result = .ok () →
      env.report_result = .ok () →
      env.pprof_result = .ok () →
      env.write_to_vec_result = .ok () →
      env.gzip_write_result = .ok () →
      env.gzip_finish_result = .ok bs →
      p.name = none →
      update_gcp_profile_server env p =
        .err (.FailedToSerializeProfile ("GCP profile did not contain a name...")) ∧
      (step dep env s).isNext = true ∧
      ((step dep env s).retry_after).isSome = true ∧
      (step dep env s).trace.logs ≠ []) := by
  constructor
  · intro dep env s p hS h0 hcp hD
    cases hrb : s.retry_back_off with
    | some rbo =>
        have hstep : step dep env s =
            step_cycle dep env
              { backoff_provider := s.backoff_provider, retry_back_off := some rbo }
              [rbo] [retry_log] := by
          simp [step, hS, hrb]
        rw [hstep]
        simp [step_cycle, hcp, hD,
          on_failure_isNext, on_failure_retry_isSome, on_failure_trace, h0]
    | none =>
        have hstep : step dep env s =
            step_cycle dep env
              { backoff_provider := Backoff.new 60 3600 (13/10), retry_back_off := none }
              [] [] := by
          simp [step, hS, hrb]
        have h1 : (0:ℚ) <
            (Backoff.new 60 3600 (13/10) : Backoff).current_envelope_sec := by
          norm_num [Backoff.new]
        rw [hstep]
        simp [step_cycle, hcp, hD,
          on_failure_isNext, on_failure_retry_isSome, on_failure_trace, h1]
  · intro dep env s p d bs hS h0 hcp hD hG hR hP hW hgw hgf hN
    have hupd : update_gcp_profile_server env p =
        .err (.FailedToSerializeProfile ("GCP profile did not contain a name...")) := by
      simp [update_gcp_profile_server, hP, hW, hgw, hgf, hN]
    refine ⟨hupd, ?_⟩
    cases hrb : s.retry_back_off with
    | some rbo =>
        have hstep : step dep env s =
            step_cycle dep env
              { backoff_provider := s.backoff_provider, retry_back_off := some rbo }
              [rbo] [retry_log] := by
          simp [step, hS, hrb]
        rw [hstep]
        simp [step_cycle, do_profile, hcp, hD, hG, hR, hupd,
          on_failure_isNext, on_failure_retry_isSome, on_failure_trace, h0]
    | none =>
        have hstep : step dep env s =
            step_cycle dep env
              { backoff_provider := Backoff.new 60 3600 (13/10), retry_back_off := none }
              [] [] := by
          simp [step, hS, hrb]
        have h1 : (0:ℚ) <
            (Backoff.new 60 3600 (13/10) : Backoff).current_envelope_sec := by
          norm_num [Backoff.new]
        rw [hstep]
        simp [step_cycle, do_profile, hcp, hD, hG, hR, hupd,
          on_failure_isNext, on_failure_retry_isSome, on_failure_trace, h1]

/-- Witness for C7: the missing-duration and missing-name environments,
from the initial loop state. -/
theorem c7_missing_fields_are_stage_failures_witness :
    ((step dep0 env_missing_duration initial_loop_state).isNext = true ∧
      ((step dep0 env_missing_duration initial_loop_state).retry_after).isSome = true ∧
      (step dep0 env_missing_duration initial_loop_state).trace.logs ≠ []) ∧
    (update_gcp_profile_server env_missing_name profile_no_name =
        .err (.FailedToSerializeProfile ("GCP profile did not contain a name...")) ∧
      (step dep0 env_missing_name initial_loop_state).isNext = true ∧
      ((step dep0 env_missing_name initial_loop_state).retry_after).isSome = true ∧
      (step dep0 env_missing_name initial_loop_state).trace.logs ≠ []) :=
  ⟨c7_missing_fields_are_stage_failures.1 dep0 env_missing_duration initial_loop_state
      profile_no_duration rfl (by norm_num [initial_loop_state, Backoff.new]) rfl rfl,
    c7_missing_fields_are_stage_failures.2 dep0 env_missing_name initial_loop_state
      profile_no_name 5000000000 [] rfl (by norm_num [initial_loop_state, Backoff.new])
      rfl rfl rfl rfl rfl rfl rfl rfl rfl⟩

/-- C8: with the gate closed the iteration leaves the state untouched,
sleeps the fixed 60-second idle interval whatever the backoff state is,
performs no remote call and no sampling, and logs nothing; with the gate
open, `create_profile` is always attempted. -/
theorem c8_closed_gate_idles_open_gate_cycles :
    (∀ (dep : Option Deployment) (env : IterEnv) (s : LoopState),
      env.should_start = false →
      step dep env s =
        .next s
          { sleeps := [60], logs := [], create_called := false,
            create_request := none, sample := none, upload_called := false }) ∧
    (∀ (dep : Option Deployment) (env : IterEnv) (s : LoopState),
      env.should_start = true →
      ((step dep env s).trace).create_called = true) := by
  constructor
  · intro dep env s hS
    simp [step, hS]
  · intro dep env s hS
    have hcyc : ∀ (s1 : LoopState) (ps : List ℚ) (pl : List String),
        ((step_cycle dep env s1 ps pl).trace).create_called = true := by
      intro s1 ps pl
      cases hcp : (create_profile dep env).2 with
      | error e => simp [step_cycle, hcp, on_failure_trace]
      | ok p =>
          cases hD : p.duration with
          | none => simp [step_cycle, hcp, hD, on_failure_trace]
          | some d =>
              cases hdp : (do_profile env (profile_sleep_nanos d) env.configuration).2 with
              | error e => simp [step_cycle, hcp, hD, hdp, on_failure_trace]
              | ok r =>
                  cases hup : update_gcp_profile_server env p with
                  | crashed => simp [step_cycle, hcp, hD, hdp, hup, IterResult.trace]
                  | err e => simp [step_cycle, hcp, hD, hdp, hup, on_failure_trace]
                  | ok r2 => simp [step_cycle, hcp, hD, hdp, hup, IterResult.trace]
    cases hrb : s.retry_back_off with
    | some rbo =>
        have hstep : step dep env s =
            step_cycle dep env
              { backoff_provider := s.backoff_provider, retry_back_off := some rbo }
              [rbo] [retry_log] := by
          simp [step, hS, hrb]
        rw [hstep]
        exact hcyc _ _ _
    | none =>
        have hstep : step dep env s =
            step_cycle dep env
              { backoff_provider := Backoff.new 60 3600 (13/10), retry_back_off := none }
              [] [] := by
          simp [step, hS, hrb]
        rw [hstep]
        exact hcyc _ _ _

/-- Witness for C8: gate closed on `env_gate_closed` (no calls, fixed
60-second sleep, state untouched), gate open on `env_all_ok` (create
attempted). -/
theorem c8_closed_gate_idles_open_gate_cycles_witness :
    step dep0 env_gate_closed initial_loop_state =
      .next initial_loop_state
        { sleeps := [60], logs := [], create_called := false,
          create_request := none, sample := none, upload_called := false } ∧
    ((step dep0 env_all_ok initial_loop_state).trace).create_called = true :=
  ⟨c8_closed_gate_idles_open_gate_cycles.1 dep0 env_gate_closed initial_loop_state rfl,
    c8_closed_gate_idles_open_gate_cycles.2 dep0 env_all_ok initial_loop_state rfl⟩

/-- C9: whenever the gate is open and the auth token was obtained, the
create call recorded in the trace carries the FIXED parent string
`projects/statsig-services`, for every project id passed to
`maybe_start_profiling`; the supplied project id only occurs inside the
`Deployment` carried in the request body. -/
theorem c9_create_parent_is_fixed_literal (p sv v : String) (env : IterEnv)
    (s : LoopState) (tok : String)
    (hS : env.should_start = true) (hA : env.auth_token = .ok tok) :
    (step (some (mk_deployment p sv v)) env s).trace.create_request =
      some ({ deployment := some (mk_deployment p sv v),
              profile_type := some [("Wall")] },
        "projects/statsig-services") ∧
    (mk_deployment p sv v).project_id = some p := by
  refine ⟨?_, rfl⟩
  have hc1 : (create_profile (some (mk_deployment p sv v)) env).1 =
      some ({ deployment := some (mk_deployment p sv v),
              profile_type := some [("Wall")] },
        "projects/statsig-services") := by
    cases hC : env.create_result with
    | error e => simp [create_profile, get_hub, get_auth_token, hA, hC, create_profile_parent]
    | ok q => simp [create_profile, get_hub, get_auth_token, hA, hC, create_profile_parent]
  have hcyc : ∀ (s1 : LoopState) (ps : List ℚ) (pl : List String),
      ((step_cycle (some (mk_deployment p sv v)) env s1 ps pl).trace).create_request =
        some ({ deployment := some (mk_deployment p sv v),
                profile_type := some [("Wall")] },
          "projects/statsig-services") := by
    intro s1 ps pl
    cases hcp : (create_profile (some (mk_deployment p sv v)) env).2 with
    | error e => simp [step_cycle, hcp, hc1, on_failure_trace]
    | ok q =>
        cases hD : q.duration with
        | none => simp [step_cycle, hcp, hD, hc1, on_failure_trace]
        | some d =>
            cases hdp : (do_profile env (profile_sleep_nanos d) env.configuration).2 with
            | error e => simp [step_cycle, hcp, hD, hdp, hc1, on_failure_trace]
            | ok r =>
                cases hup : update_gcp_profile_server env q with
                | crashed => simp [step_cycle, hcp, hD, hdp, hup, hc1, IterResult.trace]
                | err e => simp [step_cycle, hcp, hD, hdp, hup, hc1, on_failure_trace]
                | ok r2 => simp [step_cycle, hcp, hD, hdp, hup, hc1, IterResult.trace]
  cases hrb : s.retry_back_off with
  | some rbo =>
      have hstep : step (some (mk_deployment p sv v)) env s =
          step_cycle (some (mk_deployment p sv v)) env
            { backoff_provider := s.backoff_provider, retry_back_off := some rbo }
            [rbo] [retry_log] := by
        simp [step, hS, hrb]
      rw [hstep]
      exact hcyc _ _ _
  | none =>
      have hstep : step (some (mk_deployment p sv v)) env s =
          step_cycle (some (mk_deployment p sv v)) env
            { backoff_provider := Backoff.new 60 3600 (13/10), retry_back_off := none }
            [] [] := by
        simp [step, hS, hrb]
      rw [hstep]
      exact hcyc _ _ _

/-- Witness for C9 at the doc-example identity and the all-success
iteration from the initial state. -/
theorem c9_create_parent_is_fixed_literal_witness :
    (step (some (mk_deployment ("my-gcp-project-id") ("my-service") ("v1")))
        env_all_ok initial_loop_state).trace.create_request =
      some ({ deployment := some (mk_deployment ("my-gcp-project-id") ("my-service") ("v1")),
              profile_type := some [("Wall")] },
        "projects/statsig-services") ∧
    (mk_deployment ("my-gcp-project-id") ("my-service") ("v1")).project_id =
      some ("my-gcp-project-id") :=
  c9_create_parent_is_fixed_literal ("my-gcp-project-id") ("my-service") ("v1")
    env_all_ok initial_loop_state ("token") rfl rfl

/-- C10: the label map attached to every session-create call holds exactly
the two entries `language -> go` and `version -> <version>`, for every
identity passed to `maybe_start_profiling`. -/
theorem c10_labels_exactly_language_go_and_version (p sv v : String) :
    (mk_deployment p sv v).labels = some (mk_labels v) ∧
    (mk_labels v).lookup ("language") = some ("go") ∧
    (mk_labels v).lookup ("version") = some v ∧
    (mk_labels v).map Prod.fst = [("language"), ("version")] := by
  refine ⟨rfl, ?_, ?_, ?_⟩ <;>
    simp [mk_labels, hashmap_insert, List.lookup]

/-- Witness for C10 at the doc-example identity. -/
theorem c10_labels_exactly_language_go_and_version_witness :
    (mk_deployment ("my-gcp-project-id") ("my-service") ("v1")).labels =
      some (mk_labels ("v1")) ∧
    (mk_labels ("v1")).lookup ("language") = some ("go") ∧
    (mk_labels ("v1")).lookup ("version") = some ("v1") ∧
    (mk_labels ("v1")).map Prod.fst = [("language"), ("version")] :=
  c10_labels_exactly_language_go_and_version ("my-gcp-project-id") ("my-service") ("v1")

end CloudProfiler
